import Mathlib

/-!
Verification of the beehive monitoring core (sensor reading, interpretation,
persistence, camera stream manager, HTTP surface) against its specification.
The Python modules `sensor/dht_sensor.py`, `sensor/camera_stream.py` and
`app.py` are shallowly embedded below: pure functions become Lean functions,
the hardware and the filesystem become explicit environment parameters, a
Python exception escaping a function becomes `Except.error`, and Python
floats are modelled as rationals (the code only compares and rounds them).
-/

namespace Beehive

/-- A raw sensor reading as returned by `get_reading` in
`sensor/dht_sensor.py`: optional temperature, optional humidity, optional
error string. -/
structure Reading where
  temperature_c : Option ℚ
  humidity : Option ℚ
  error : Option String
deriving DecidableEq

/-- The result of `interpret_reading`: a temperature status and a humidity
status (the Python code always assigns both). -/
structure Interpretation where
  temperature_status : String
  humidity_status : String
deriving DecidableEq

/-- Embedding of `interpret_reading` from `sensor/dht_sensor.py`, lines
100-134: band the temperature and humidity of a reading into qualitative
statuses, absent values becoming "unknown". -/
def interpret_reading (reading : Reading) : Interpretation :=
  let temp_status :=
    match reading.temperature_c with
    | none => "unknown"
    | some t =>
      if 32 ≤ t ∧ t ≤ 36 then "ideal"
      else if t < 30 then "too_cold"
      else if t > 38 then "overheating"
      else "warning"
  let hum_status :=
    match reading.humidity with
    | none => "unknown"
    | some h =>
      if 50 ≤ h ∧ h ≤ 65 then "ideal"
      else if h < 40 then "too_dry"
      else if h > 70 then "too_damp"
      else "warning"
  ⟨temp_status, hum_status⟩

/-- C1: `interpret_reading` maps an absent temperature to "unknown", a
temperature in [32,36] to "ideal", one strictly below 30 to "too_cold", one
strictly above 38 to "overheating", and every other temperature to
"warning"; symmetrically for humidity with bands [50,65], below 40, above
70; and the concrete reading (29.0, 75.0) yields ("too_cold", "too_damp"). -/
theorem C1_interpret_bands :
    (∀ r : Reading, r.temperature_c = none →
      (interpret_reading r).temperature_status = "unknown") ∧
    (∀ r : Reading, ∀ t : ℚ, r.temperature_c = some t →
      ((32 ≤ t ∧ t ≤ 36) → (interpret_reading r).temperature_status = "ideal") ∧
      (t < 30 → (interpret_reading r).temperature_status = "too_cold") ∧
      (38 < t → (interpret_reading r).temperature_status = "overheating") ∧
      (¬(32 ≤ t ∧ t ≤ 36) → ¬(t < 30) → ¬(38 < t) →
        (interpret_reading r).temperature_status = "warning")) ∧
    (∀ r : Reading, r.humidity = none →
      (interpret_reading r).humidity_status = "unknown") ∧
    (∀ r : Reading, ∀ h : ℚ, r.humidity = some h →
      ((50 ≤ h ∧ h ≤ 65) → (interpret_reading r).humidity_status = "ideal") ∧
      (h < 40 → (interpret_reading r).humidity_status = "too_dry") ∧
      (70 < h → (interpret_reading r).humidity_status = "too_damp") ∧
      (¬(50 ≤ h ∧ h ≤ 65) → ¬(h < 40) → ¬(70 < h) →
        (interpret_reading r).humidity_status = "warning")) ∧
    interpret_reading ⟨some 29, some 75, none⟩ = ⟨"too_cold", "too_damp"⟩ := by
  refine ⟨?_, ?_, ?_, ?_, ?_⟩
  · intro r hr
    simp [interpret_reading, hr]
  · intro r t hr
    refine ⟨?_, ?_, ?_, ?_⟩
    · intro hband
      simp [interpret_reading, hr, hband]
    · intro hcold
      have hnot : ¬(32 ≤ t ∧ t ≤ 36) := by
        rintro ⟨h1, _⟩
        linarith
      simp [interpret_reading, hr, hnot, hcold]
    · intro hhot
      have hnot : ¬(32 ≤ t ∧ t ≤ 36) := by
        rintro ⟨_, h2⟩
        linarith
      have hnc : ¬(t < 30) := by linarith
      simp [interpret_reading, hr, hnot, hnc, hhot]
    · intro h1 h2 h3
      simp [interpret_reading, hr, h1, h2, h3]
  · intro r hr
    simp [interpret_reading, hr]
  · intro r h hr
    refine ⟨?_, ?_, ?_, ?_⟩
    · intro hband
      simp [interpret_reading, hr, hband]
    · intro hdry
      have hnot : ¬(50 ≤ h ∧ h ≤ 65) := by
        rintro ⟨h1, _⟩
        linarith
      simp [interpret_reading, hr, hnot, hdry]
    · intro hdamp
      have hnot : ¬(50 ≤ h ∧ h ≤ 65) := by
        rintro ⟨_, h2⟩
        linarith
      have hnd : ¬(h < 40) := by linarith
      simp [interpret_reading, hr, hnot, hnd, hdamp]
    · intro h1 h2 h3
      simp [interpret_reading, hr, h1, h2, h3]
  · decide

/-- A persisted record as written by `get_reading_with_interpretation`:
timestamp, the two optional measurements, the optional error string and the
interpretation. -/
structure InterpretedRecord where
  timestamp : String
  temperature_c : Option ℚ
  humidity : Option ℚ
  error : Option String
  interpretation : Interpretation
deriving DecidableEq

/-- The state of the JSON record log file `data/dht_records.json`: the file
may be missing, may exist but fail to parse as JSON, or may hold a parsed
list of records. -/
inductive LogFile where
  | missing
  | corrupt
  | parsed (records : List InterpretedRecord)
deriving DecidableEq

/-- Semantics of the Python slice `records[-limit:]` for a non-negative
`limit`: for `limit = 0` the index `-0` is `0` and the slice is the whole
list; for `limit ≥ 1` it is the last `min limit length` elements. -/
def pySliceLast (limit : ℕ) (xs : List InterpretedRecord) : List InterpretedRecord :=
  if limit = 0 then xs else xs.drop (xs.length - limit)

/-- Embedding of `read_saved_records` from `sensor/dht_sensor.py`, lines
179-188: a missing file yields `[]`, a JSON parse failure yields `[]`, and
otherwise the slice `records[-limit:]` of the parsed list is returned. -/
def read_saved_records (limit : ℕ) (log : LogFile) : List InterpretedRecord :=
  match log with
  | .missing => []
  | .corrupt => []
  | .parsed records => pySliceLast limit records

/-- Embedding of the successful path of `_save_record` from
`sensor/dht_sensor.py`, lines 137-151: read the existing log (a missing or
unparsable file counts as the empty list), append the record, write the
whole list back. -/
def save_record (record : InterpretedRecord) (log : LogFile) : LogFile :=
  match log with
  | .missing => .parsed [record]
  | .corrupt => .parsed [record]
  | .parsed records => .parsed (records ++ [record])

/-- `_save_record` as actually run: the whole body is inside a
`try ... except: pass`, so on an I/O failure the log is left as it was and
no exception escapes. `ok` says whether the I/O succeeded. -/
def save_record_attempt (record : InterpretedRecord) (log : LogFile) (ok : Bool) : LogFile :=
  if ok then save_record record log else log

/-- A sample record used to instantiate counterexamples and witnesses. -/
def sampleRecord : InterpretedRecord :=
  ⟨"2025-09-25T12:34:56Z", some 33.2, some 56.1, none, ⟨"ideal", "ideal"⟩⟩

/-- A second sample record, distinct from `sampleRecord`. -/
def sampleRecord2 : InterpretedRecord :=
  ⟨"2025-09-25T12:35:56Z", some 29, some 75, none, ⟨"too_cold", "too_damp"⟩⟩

/-- C2 counterexample: the claim asserts that for every non-negative limit
`n`, `read_saved_records n` returns at most `n` records; at `n = 0` with a
one-record log the Python slice `records[-0:]` is the whole list, so one
record is returned, not zero. -/
theorem C2_limit_zero_counterexample :
    read_saved_records 0 (LogFile.parsed [sampleRecord]) = [sampleRecord] ∧
    ¬ (read_saved_records 0 (LogFile.parsed [sampleRecord])).length ≤ 0 := by
  constructor
  · rfl
  · decide

/-- C2 (amended to positive limits): for every `limit ≥ 1`,
`read_saved_records` returns at most `limit` records, taken from the end of
the parsed log with the original append order preserved (the result is a
suffix of the log), and a missing or unparsable log yields the empty
sequence. -/
theorem C2_read_recent_bounded (limit : ℕ) (hpos : 1 ≤ limit)
    (records : List InterpretedRecord) :
    (read_saved_records limit (LogFile.parsed records)).length ≤ limit ∧
    (read_saved_records limit (LogFile.parsed records)).IsSuffix records ∧
    read_saved_records limit LogFile.missing = [] ∧
    read_saved_records limit LogFile.corrupt = [] := by
  have hne : limit ≠ 0 := by omega
  refine ⟨?_, ?_, rfl, rfl⟩
  · simp only [read_saved_records, pySliceLast, if_neg hne]
    have := List.length_drop (records.length - limit) records
    omega
  · simp only [read_saved_records, pySliceLast, if_neg hne]
    exact List.drop_suffix _ _

/-- Witness for C2: at limit 1 on a two-record log the amended statement
holds, with the hypothesis `1 ≤ 1` discharged concretely. -/
theorem C2_read_recent_bounded_witness :
    (read_saved_records 1 (LogFile.parsed [sampleRecord, sampleRecord2])).length ≤ 1 ∧
    (read_saved_records 1 (LogFile.parsed [sampleRecord, sampleRecord2])).IsSuffix
      [sampleRecord, sampleRecord2] ∧
    read_saved_records 1 LogFile.missing = [] ∧
    read_saved_records 1 LogFile.corrupt = [] :=
  C2_read_recent_bounded 1 (by decide) [sampleRecord, sampleRecord2]

/-- C3: appending a record via the successful path of `_save_record` and
then reading back with limit 1 returns exactly the just-appended record,
whatever the prior state of the log. -/
theorem C3_append_then_read_one (r : InterpretedRecord) (log : LogFile) :
    read_saved_records 1 (save_record r log) = [r] := by
  cases log with
  | missing => rfl
  | corrupt => rfl
  | parsed records =>
    simp only [save_record, read_saved_records, pySliceLast, if_neg one_ne_zero]
    have hlen : (records ++ [r]).length - 1 = records.length := by
      simp
    rw [hlen]
    exact List.drop_left records [r]

/-- Python float modulo `a % b` for positive `b`, over rationals. -/
def pymod (a b : ℚ) : ℚ := a - b * ⌊a / b⌋

/-- Python `round(x, 1)`: round to one decimal place (over rationals; the
tie-breaking rule of binary floats is not load-bearing for any claim). -/
def round1 (x : ℚ) : ℚ := (round (x * 10) : ℚ) / 10

/-- The ambient inputs of `_mock_reading`: the wall clock `time.time()` and
the two `random.random()` draws, in the order the code makes them. -/
structure MockEnv where
  time : ℚ
  rand_t : ℚ
  rand_h : ℚ
deriving DecidableEq

/-- Embedding of `_mock_reading` from `sensor/dht_sensor.py`, lines 36-50:
base 22.0 °C and 55.0 %, perturbed by a time-based oscillation and random
jitter, rounded to one decimal, with `error = None`. -/
def mock_reading (env : MockEnv) : Reading :=
  let base_temp : ℚ := 22
  let base_hum : ℚ := 55
  let jitter_t : ℚ := (pymod env.time 10 - 5) * (2 / 100)
  let jitter_h : ℚ := (pymod env.time 7 - 7 / 2) * (1 / 10)
  { temperature_c := some (round1 (base_temp + jitter_t + (env.rand_t - 1 / 2) * (2 / 10)))
    humidity := some (round1 (base_hum + jitter_h + (env.rand_h - 1 / 2) * (5 / 10)))
    error := none }

/-- The hardware conditions `get_reading` can meet. `unavailable` is the
import-time failure of the adafruit libraries; `initFails` is
`adafruit_dht.DHT11(board.D4)` raising inside `_init_device` (which
`get_reading` calls before entering its `try` block); `readValues` is a
completed property read (either value possibly `None`); `readFault` is a
`RuntimeError` during the read; `unexpectedFault` any other exception
during the read. -/
inductive HwEnv where
  | unavailable (mock : MockEnv)
  | initFails (msg : String)
  | readValues (t h : Option ℚ)
  | readFault (msg : String)
  | unexpectedFault (msg : String)
deriving DecidableEq

/-- Embedding of `get_reading` from `sensor/dht_sensor.py`, lines 53-81.
`Except.error` models a Python exception escaping the call: `_init_device()`
is invoked before the `try` block, so a failure there propagates to the
caller; every other condition produces a `Reading`. -/
def get_reading : HwEnv → Except String Reading
  | .unavailable mock => .ok (mock_reading mock)
  | .initFails msg => .error msg
  | .readValues t h =>
    match t, h with
    | some tv, some hv => .ok ⟨some (round1 tv), some (round1 hv), none⟩
    | none, _ => .ok ⟨none, none, some "Invalid sensor reading"⟩
    | _, none => .ok ⟨none, none, some "Invalid sensor reading"⟩
  | .readFault msg => .ok ⟨none, none, some msg⟩
  | .unexpectedFault msg => .ok ⟨none, none, some msg⟩

/-- C5: the paths of `get_reading`. Import-time unavailability yields the
simulated reading, and read faults (transient or unexpected) yield a
`Reading` with both numeric fields absent and the message in `error` — but
a device-initialization failure propagates as an exception, so the claim
that no unhandled exception ever escapes is contradicted by the code: the
`_init_device()` call sits outside the `try` block. -/
theorem C5_get_reading_paths :
    (∀ msg, get_reading (HwEnv.initFails msg) = Except.error msg) ∧
    (∀ msg r, get_reading (HwEnv.initFails msg) ≠ Except.ok r) ∧
    (∀ m, get_reading (HwEnv.unavailable m) = Except.ok (mock_reading m)) ∧
    (∀ msg, get_reading (HwEnv.readFault msg) = Except.ok ⟨none, none, some msg⟩) ∧
    (∀ msg, get_reading (HwEnv.unexpectedFault msg) = Except.ok ⟨none, none, some msg⟩) := by
  refine ⟨fun msg => rfl, ?_, fun m => rfl, fun msg => rfl, fun msg => rfl⟩
  intro msg r h
  exact Except.noConfusion h

/-- C10: the field-coupling invariant of every `Reading` that `get_reading`
actually returns: temperature is absent iff humidity is absent; a set
`error` forces both numeric fields absent; a present temperature forces
`error = None`. -/
theorem C10_reading_field_coupling (env : HwEnv) (r : Reading)
    (hok : get_reading env = Except.ok r) :
    (r.temperature_c = none ↔ r.humidity = none) ∧
    (r.error ≠ none → r.temperature_c = none ∧ r.humidity = none) ∧
    (r.temperature_c ≠ none → r.error = none) := by
  cases env with
  | unavailable m =>
    simp only [get_reading, Except.ok.injEq] at hok
    subst hok
    simp [mock_reading]
  | initFails msg =>
    exact absurd hok (Except.noConfusion)
  | readValues t h =>
    cases t <;> cases h <;>
      simp only [get_reading, Except.ok.injEq] at hok <;>
      subst hok <;> simp
  | readFault msg =>
    simp only [get_reading, Except.ok.injEq] at hok
    subst hok
    simp
  | unexpectedFault msg =>
    simp only [get_reading, Except.ok.injEq] at hok
    subst hok
    simp

/-- Witness for C10: the invariant holds for the concrete reading produced
by a transient read fault, with the hypothesis discharged by `rfl`. -/
theorem C10_reading_field_coupling_witness :
    get_reading (HwEnv.readFault "checksum error") =
      Except.ok ⟨none, none, some "checksum error"⟩ ∧
    (((⟨none, none, some "checksum error"⟩ : Reading).temperature_c = none ↔
        (⟨none, none, some "checksum error"⟩ : Reading).humidity = none) ∧
      ((⟨none, none, some "checksum error"⟩ : Reading).error ≠ none →
        (⟨none, none, some "checksum error"⟩ : Reading).temperature_c = none ∧
        (⟨none, none, some "checksum error"⟩ : Reading).humidity = none) ∧
      ((⟨none, none, some "checksum error"⟩ : Reading).temperature_c ≠ none →
        (⟨none, none, some "checksum error"⟩ : Reading).error = none)) :=
  ⟨rfl, C10_reading_field_coupling (HwEnv.readFault "checksum error")
    ⟨none, none, some "checksum error"⟩ rfl⟩

/-- The in-memory record `get_reading_with_interpretation` builds from a
base reading and the current UTC time `now` (the value of
`datetime.utcnow().isoformat()`): the code appends a literal Z to it. -/
def make_record (base : Reading) (now : String) : InterpretedRecord :=
  { timestamp := now ++ "Z"
    temperature_c := base.temperature_c
    humidity := base.humidity
    error := base.error
    interpretation := interpret_reading base }

/-- Embedding of `get_reading_with_interpretation` from
`sensor/dht_sensor.py`, lines 154-176, given the reading the Reading Source
produced: build the timestamped interpreted record, attempt to persist it
(`ok` is the I/O outcome, failures being swallowed by `_save_record`), and
return the in-memory record together with the resulting log state. -/
def get_reading_with_interpretation (base : Reading) (now : String)
    (log : LogFile) (ok : Bool) : InterpretedRecord × LogFile :=
  let record := make_record base now
  (record, save_record_attempt record log ok)

/-- C4: for every reading (error-carrying ones included),
`get_reading_with_interpretation` returns the record that copies the
reading's fields, stamps `now ++ "Z"` and attaches the interpretation
(unknown-banded when fields are absent); the returned record does not
depend on whether persistence succeeded; on success the log gains exactly
the record, on failure it is unchanged, and in neither case does an error
escape. -/
theorem C4_read_and_record_best_effort (base : Reading) (now : String)
    (log : LogFile) (ok ok2 : Bool) :
    (get_reading_with_interpretation base now log ok).1 =
      ⟨now ++ "Z", base.temperature_c, base.humidity, base.error,
        interpret_reading base⟩ ∧
    (get_reading_with_interpretation base now log ok).1 =
      (get_reading_with_interpretation base now log ok2).1 ∧
    (base.temperature_c = none →
      (get_reading_with_interpretation base now log ok).1.interpretation.temperature_status
        = "unknown") ∧
    (base.humidity = none →
      (get_reading_with_interpretation base now log ok).1.interpretation.humidity_status
        = "unknown") ∧
    (get_reading_with_interpretation base now log true).2 =
      save_record (make_record base now) log ∧
    (get_reading_with_interpretation base now log false).2 = log := by
  refine ⟨rfl, rfl, ?_, ?_, rfl, rfl⟩
  · intro htemp
    simp [get_reading_with_interpretation, make_record, interpret_reading, htemp]
  · intro hhum
    simp [get_reading_with_interpretation, make_record, interpret_reading, hhum]

/-- A `CameraStream` instance from `sensor/camera_stream.py`: its stored
configuration (size, framerate, quality) plus an identity `id` so that
"the same instance" and "a fresh instance" are distinguishable in the
model. -/
structure CameraStream where
  id : ℕ
  size : ℕ × ℕ
  framerate : ℕ
  quality : ℕ
deriving DecidableEq

/-- The `_GLOBAL_CAMERA` singleton state of `sensor/camera_stream.py`:
the running instance if any, a counter supplying fresh instance ids, and
the ids of instances that have been stopped. -/
structure CameraManager where
  current : Option CameraStream
  nextId : ℕ
  stopped : List ℕ
deriving DecidableEq

/-- Embedding of `get_camera` from `sensor/camera_stream.py`, lines 96-108,
on the path where construction succeeds: with no instance, build one; with
a running instance, recreate it only when size or quality differ (a
framerate difference alone leaves the instance untouched), stopping the old
one first; otherwise return the running instance unchanged. -/
def get_camera (size : ℕ × ℕ) (framerate quality : ℕ) (st : CameraManager) :
    CameraStream × CameraManager :=
  match st.current with
  | none =>
    let cam : CameraStream := ⟨st.nextId, size, framerate, quality⟩
    (cam, { current := some cam, nextId := st.nextId + 1, stopped := st.stopped })
  | some cam =>
    if cam.size ≠ size ∨ cam.quality ≠ quality then
      let fresh : CameraStream := ⟨st.nextId, size, framerate, quality⟩
      (fresh, { current := some fresh, nextId := st.nextId + 1,
                stopped := st.stopped ++ [cam.id] })
    else
      (cam, st)

/-- `get_camera` with a fallible `CameraStream` constructor
(`constructFails` says whether `CameraStream(...)` raises). With no
instance yet, the construction is not guarded, so its exception propagates
(`Except.error`); on the reconfiguration path the whole check sits inside
`try ... except Exception: pass`, so a failure is swallowed and the old
(now stopped) instance is returned. -/
def get_camera_attempt (constructFails : Bool) (size : ℕ × ℕ)
    (framerate quality : ℕ) (st : CameraManager) :
    Except String (CameraStream × CameraManager) :=
  match st.current with
  | none =>
    if constructFails then Except.error "Picamera2 unavailable: CameraStream construction raised"
    else Except.ok (get_camera size framerate quality st)
  | some cam =>
    if cam.size ≠ size ∨ cam.quality ≠ quality then
      if constructFails then
        Except.ok (cam, { current := some cam, nextId := st.nextId,
                          stopped := st.stopped ++ [cam.id] })
      else Except.ok (get_camera size framerate quality st)
    else Except.ok (cam, st)

/-- An HTTP outcome of the `/camera_feed` handler: a plain-text response
with a status code, or a streaming response with a mimetype. -/
inductive HttpResult where
  | plainText (status : ℕ) (body : String)
  | stream (mimetype : String)
deriving DecidableEq

/-- The availability of the camera subsystem when `/camera_feed` runs:
importing `sensor.camera_stream` raises `ImportError` (e.g. OpenCV is
missing), or the module loads and `CameraStream` construction either
raises or succeeds. -/
inductive CameraSubsystem where
  | importError
  | loaded (constructFails : Bool)
deriving DecidableEq

/-- Embedding of the `camera_feed` handler from `app.py`, lines 28-45: only
an `ImportError` from the module import is caught and turned into the 503
plain-text response; any exception out of `get_camera` is unhandled and
propagates out of the handler (`Except.error`). -/
def camera_feed (sub : CameraSubsystem) (size : ℕ × ℕ)
    (framerate quality : ℕ) (st : CameraManager) :
    Except String (HttpResult × CameraManager) :=
  match sub with
  | .importError => Except.ok (.plainText 503 "Camera not available", st)
  | .loaded constructFails =>
    match get_camera_attempt constructFails size framerate quality st with
    | .error e => .error e
    | .ok (_, st2) =>
      .ok (.stream "multipart/x-mixed-replace; boundary=frame", st2)

/-- The manager state before any camera has been created. -/
def freshManager : CameraManager := ⟨none, 0, []⟩

/-- C6: what `/camera_feed` does when the camera subsystem is unavailable.
An `ImportError` from the module import yields the 503 plain-text response,
but a camera-acquisition failure at construction time is not caught: the
handler propagates the exception instead of answering 503, contradicting
the claim. -/
theorem C6_camera_feed_unavailable :
    camera_feed CameraSubsystem.importError (640, 480) 15 80 freshManager =
      Except.ok (HttpResult.plainText 503 "Camera not available", freshManager) ∧
    camera_feed (CameraSubsystem.loaded true) (640, 480) 15 80 freshManager =
      Except.error "Picamera2 unavailable: CameraStream construction raised" ∧
    (∀ status body st, camera_feed (CameraSubsystem.loaded true) (640, 480) 15 80 freshManager ≠
      Except.ok (HttpResult.plainText status body, st)) := by
  refine ⟨rfl, rfl, ?_⟩
  intro status body st h
  exact Except.noConfusion h

/-- C7: reconfiguration behavior of `get_camera` while an instance runs.
If the requested size or quality differs, the running instance is stopped
(its id joins the stopped list) and a fresh instance carrying the new
configuration becomes the one current instance and is returned; if size and
quality agree, the running instance and the whole state are returned
unchanged, whatever framerate was requested. -/
theorem C7_get_camera_reconfigure (size : ℕ × ℕ) (framerate quality : ℕ)
    (st : CameraManager) (cam : CameraStream)
    (hcur : st.current = some cam) :
    ((cam.size ≠ size ∨ cam.quality ≠ quality) →
      (get_camera size framerate quality st).1 = ⟨st.nextId, size, framerate, quality⟩ ∧
      (get_camera size framerate quality st).2.current =
        some (get_camera size framerate quality st).1 ∧
      (get_camera size framerate quality st).2.stopped = st.stopped ++ [cam.id] ∧
      (get_camera size framerate quality st).2.nextId = st.nextId + 1) ∧
    (cam.size = size → cam.quality = quality →
      get_camera size framerate quality st = (cam, st)) := by
  constructor
  · intro hdiff
    simp [get_camera, hcur, hdiff]
  · intro hsize hq
    have hnot : ¬(cam.size ≠ size ∨ cam.quality ≠ quality) := by
      push_neg
      exact ⟨hsize, hq⟩
    simp [get_camera, hcur, hnot]

/-- Witness for C7: a manager running a 640x480 instance, asked for
1280x720, recreates; asked for 640x480 at another framerate, keeps the
instance. The hypothesis `current = some cam` is discharged by `rfl`. -/
theorem C7_get_camera_reconfigure_witness :
    ((CameraStream.mk 0 (640, 480) 15 80).size ≠ (1280, 720) ∨
        (CameraStream.mk 0 (640, 480) 15 80).quality ≠ 80 →
      (get_camera (1280, 720) 15 80 ⟨some ⟨0, (640, 480), 15, 80⟩, 1, []⟩).1 =
        ⟨1, (1280, 720), 15, 80⟩ ∧
      (get_camera (1280, 720) 15 80 ⟨some ⟨0, (640, 480), 15, 80⟩, 1, []⟩).2.current =
        some (get_camera (1280, 720) 15 80 ⟨some ⟨0, (640, 480), 15, 80⟩, 1, []⟩).1 ∧
      (get_camera (1280, 720) 15 80 ⟨some ⟨0, (640, 480), 15, 80⟩, 1, []⟩).2.stopped =
        [] ++ [0] ∧
      (get_camera (1280, 720) 15 80 ⟨some ⟨0, (640, 480), 15, 80⟩, 1, []⟩).2.nextId = 1 + 1) ∧
    ((CameraStream.mk 0 (640, 480) 15 80).size = (1280, 720) →
      (CameraStream.mk 0 (640, 480) 15 80).quality = 80 →
      get_camera (1280, 720) 15 80 ⟨some ⟨0, (640, 480), 15, 80⟩, 1, []⟩ =
        (⟨0, (640, 480), 15, 80⟩, ⟨some ⟨0, (640, 480), 15, 80⟩, 1, []⟩)) :=
  C7_get_camera_reconfigure (1280, 720) 15 80
    ⟨some ⟨0, (640, 480), 15, 80⟩, 1, []⟩ ⟨0, (640, 480), 15, 80⟩ rfl

/-- The multipart envelope `mjpeg_generator` wraps around one JPEG payload.
Byte strings are modelled as Lean strings, one character per byte; the
Content-Length value is the decimal rendering of the payload length. -/
def mjpeg_envelope (frame : String) : String :=
  "--frame" ++ "\r\n" ++ "Content-Type: image/jpeg" ++ "\r\n" ++
    "Content-Length: " ++ toString frame.length ++ "\r\n" ++ "\r\n" ++
    frame ++ "\r\n"

/-- One iteration of the loop body of `mjpeg_generator` from
`sensor/camera_stream.py`, lines 111-118, applied to the value
`cam.get_frame()` returned: a missing frame (`None`) or an empty byte
string is falsy, so nothing is yielded and the loop sleeps; otherwise the
envelope around the frame is yielded. -/
def mjpeg_step : Option String → Option String
  | none => none
  | some frame => if frame = "" then none else some (mjpeg_envelope frame)

/-- The generator over a finite trace of `get_frame` results: the sequence
of yielded elements. -/
def mjpeg_generator (trace : List (Option String)) : List String :=
  trace.filterMap mjpeg_step

/-- C9: every emitted element is exactly the boundary line, the two header
lines, the blank line, the payload and a trailing CRLF, with Content-Length
the decimal length of the payload; an unavailable frame (absent or empty)
causes no emission, and a trace of unavailable frames emits nothing. -/
theorem C9_mjpeg_wire_format (frame : String) (hne : frame ≠ "") :
    mjpeg_step (some frame) =
      some ("--frame" ++ "\r\n" ++ "Content-Type: image/jpeg" ++ "\r\n" ++
        "Content-Length: " ++ toString frame.length ++ "\r\n" ++ "\r\n" ++
        frame ++ "\r\n") ∧
    mjpeg_step none = none ∧
    mjpeg_step (some "") = none ∧
    (∀ trace : List (Option String), (∀ x ∈ trace, x = none) →
      mjpeg_generator trace = []) := by
  refine ⟨?_, rfl, rfl, ?_⟩
  · simp [mjpeg_step, hne, mjpeg_envelope]
  · intro trace htr
    refine List.filterMap_eq_nil_iff.mpr ?_
    intro x hx
    rw [htr x hx]
    rfl

/-- Witness for C9: the one-byte payload "J" is wrapped exactly as claimed,
with Content-Length 1; the hypothesis that the payload is non-empty is
discharged concretely. -/
theorem C9_mjpeg_wire_format_witness :
    ("J" : String) ≠ "" ∧
    (mjpeg_step (some "J") =
      some ("--frame" ++ "\r\n" ++ "Content-Type: image/jpeg" ++ "\r\n" ++
        "Content-Length: " ++ toString ("J" : String).length ++ "\r\n" ++ "\r\n" ++
        "J" ++ "\r\n") ∧
      mjpeg_step none = none ∧
      mjpeg_step (some "") = none ∧
      (∀ trace : List (Option String), (∀ x ∈ trace, x = none) →
        mjpeg_generator trace = [])) ∧
    mjpeg_step (some "J") =
      some "--frame\r\nContent-Type: image/jpeg\r\nContent-Length: 1\r\n\r\nJ\r\n" :=
  ⟨by decide, C9_mjpeg_wire_format "J" (by decide), by decide⟩

/-- A JSON value as it appears in the `/api/sensor` response dictionary. -/
inductive FieldVal where
  | null
  | num (q : ℚ)
  | str (s : String)
  | bool (b : Bool)
  | interp (i : Interpretation)
deriving DecidableEq

/-- The JSON value of an optional measurement: `None` becomes null. -/
def fieldOfOptQ : Option ℚ → FieldVal
  | none => .null
  | some q => .num q

/-- The JSON value of the motion boolean. -/
def motionField : Option Bool → FieldVal
  | none => .null
  | some b => .bool b

/-- The `motion_status` string `sensor_api` derives from
`get_state().get("motion")`: True, False or anything else. -/
def motion_status_of : Option Bool → String
  | some true => "detected"
  | some false => "none"
  | none => "unknown"

/-- Python `d.pop(key, None)` on an association-list dictionary: drop the
entries carrying `key`. -/
def dictPop (key : String) (d : List (String × FieldVal)) : List (String × FieldVal) :=
  d.filter (fun kv => kv.1 != key)

/-- The four entries `sensor_api` copies out of an interpreted record (the
record's own `error` field is never copied). -/
def recordFields (r : InterpretedRecord) : List (String × FieldVal) :=
  [("temperature_c", fieldOfOptQ r.temperature_c),
   ("humidity", fieldOfOptQ r.humidity),
   ("timestamp", FieldVal.str r.timestamp),
   ("interpretation", FieldVal.interp r.interpretation)]

/-- The measurement part of the `/api/sensor` response together with the
resulting log state, from `app.py` lines 57-78: if the live reading misses
temperature or humidity, fall back to the most recent persisted record
(or to two null fields when there is none), without persisting; otherwise
build a fresh interpreted record from a second live read (`base2`, the read
`get_reading_with_interpretation` performs) and persist it best-effort. -/
def sensor_api_core (base base2 : Reading) (log : LogFile) (now : String)
    (ok : Bool) : List (String × FieldVal) × LogFile :=
  if base.temperature_c = none ∨ base.humidity = none then
    match (read_saved_records 1 log).getLast? with
    | some last => (recordFields last, log)
    | none => ([("temperature_c", FieldVal.null), ("humidity", FieldVal.null)], log)
  else
    (recordFields (make_record base2 now),
      save_record_attempt (make_record base2 now) log ok)

/-- Appending the motion entries and stripping the transient error keys,
as the tail of the `sensor_api` handler does (`reading["motion"] = ...`,
`reading["motion_status"] = ...`, then `pop` of `error` and
`motion_error`). -/
def withMotionFields (core : List (String × FieldVal)) (motion : Option Bool) :
    List (String × FieldVal) :=
  dictPop "motion_error" (dictPop "error"
    (core ++ [("motion", motionField motion),
              ("motion_status", FieldVal.str (motion_status_of motion))]))

/-- Embedding of the `sensor_api` handler from `app.py`, lines 48-102:
the response dictionary (as an ordered association list) and the resulting
log state. -/
def sensor_api (base base2 : Reading) (log : LogFile) (motion : Option Bool)
    (now : String) (ok : Bool) : List (String × FieldVal) × LogFile :=
  (withMotionFields (sensor_api_core base base2 log now ok).1 motion,
    (sensor_api_core base base2 log now ok).2)

theorem mem_withMotionFields (core : List (String × FieldVal))
    (motion : Option Bool) :
    ∀ p ∈ withMotionFields core motion, p.1 ≠ "error" ∧ p.1 ≠ "motion_error" := by
  intro p hp
  simp only [withMotionFields, dictPop, List.mem_filter, bne_iff_ne, ne_eq] at hp
  exact ⟨hp.1.2, hp.2⟩

theorem getLast?_drop_pred : ∀ (xs : List InterpretedRecord),
    (xs.drop (xs.length - 1)).getLast? = xs.getLast?
  | [] => rfl
  | [_] => rfl
  | a :: b :: t => by
    have ih := getLast?_drop_pred (b :: t)
    have h1 : (a :: b :: t).length - 1 = t.length + 1 := rfl
    have h2 : (b :: t).length - 1 = t.length := rfl
    rw [h1, List.drop_succ_cons, List.getLast?_cons_cons]
    rw [h2] at ih
    exact ih

theorem getLast?_read_one (records : List InterpretedRecord) :
    (read_saved_records 1 (LogFile.parsed records)).getLast? = records.getLast? := by
  simp only [read_saved_records, pySliceLast, if_neg one_ne_zero]
  exact getLast?_drop_pred records

/-- C8: the `/api/sensor` response always carries a `motion_status` among
"detected", "none" and "unknown", never carries an `error` or
`motion_error` entry, and, when the live reading misses both temperature
and humidity and a persisted record exists, reuses the most recent
record's temperature, humidity, timestamp and interpretation. -/
theorem C8_sensor_api_contract (base base2 : Reading) (log : LogFile)
    (motion : Option Bool) (now : String) (ok : Bool) :
    (motion_status_of motion = "detected" ∨ motion_status_of motion = "none" ∨
      motion_status_of motion = "unknown") ∧
    (sensor_api base base2 log motion now ok).1.lookup "motion_status" =
      some (FieldVal.str (motion_status_of motion)) ∧
    (∀ p ∈ (sensor_api base base2 log motion now ok).1,
      p.1 ≠ "error" ∧ p.1 ≠ "motion_error") ∧
    (∀ records last, log = LogFile.parsed records → records.getLast? = some last →
      base.temperature_c = none → base.humidity = none →
      (sensor_api base base2 log motion now ok).1.lookup "temperature_c" =
        some (fieldOfOptQ last.temperature_c) ∧
      (sensor_api base base2 log motion now ok).1.lookup "humidity" =
        some (fieldOfOptQ last.humidity) ∧
      (sensor_api base base2 log motion now ok).1.lookup "timestamp" =
        some (FieldVal.str last.timestamp) ∧
      (sensor_api base base2 log motion now ok).1.lookup "interpretation" =
        some (FieldVal.interp last.interpretation)) := by
  refine ⟨?_, ?_, ?_, ?_⟩
  · rcases motion with _ | b
    · right; right; rfl
    · cases b
      · right; left; rfl
      · left; rfl
  · show (withMotionFields (sensor_api_core base base2 log now ok).1 motion).lookup
      "motion_status" = some (FieldVal.str (motion_status_of motion))
    by_cases hc : base.temperature_c = none ∨ base.humidity = none
    · rcases hE : (read_saved_records 1 log).getLast? with _ | last
      · rw [sensor_api_core, if_pos hc, hE]
        rfl
      · rw [sensor_api_core, if_pos hc, hE]
        rfl
    · rw [sensor_api_core, if_neg hc]
      rfl
  · exact mem_withMotionFields _ motion
  · intro records last hlog hlast htemp hhum
    have hc : base.temperature_c = none ∨ base.humidity = none := Or.inl htemp
    have hE : (read_saved_records 1 log).getLast? = some last := by
      rw [hlog, getLast?_read_one, hlast]
    have hcore : sensor_api_core base base2 log now ok = (recordFields last, log) := by
      rw [sensor_api_core, if_pos hc, hE]
    simp only [sensor_api, hcore]
    exact ⟨rfl, rfl, rfl, rfl⟩

end Beehive
